import Mathlib

/-!
Shallow embedding of the ekyc-backend gateway middleware (idempotency guard,
rate limiter), the Redis-backed helpers, the NATS event bus envelope, the
logger's id-number masking, and the session state machine, together with
theorems checking the specification against these definitions.

Conventions: machine time is `Nat` seconds; Redis stores are functions from
keys to optional entries with absolute expiry instants, plus a `down` flag
modelling an unreachable store (every call on a down store returns an error);
handlers are pure functions from the request to the status, headers and body
they write.
-/

namespace Ekyc

/-- A captured response stored in the idempotency cache: the
status/headers/body envelope that the gateway `Idempotency` middleware
marshals to JSON before caching (idempotency.go, the `response` map). -/
structure CachedResponse where
  status : Nat
  headers : List (String × String)
  body : String
deriving DecidableEq, Repr

/-- The body of an HTTP response as written to the client.  `raw` is plain
text written by a handler or by `http.Error`; `envelopeJson` is the JSON
encoding of a cached envelope, produced by `json.NewEncoder(w).Encode` on the
idempotency cache-hit path; `rateLimitJson` is the gateway rate limiter's
JSON error object (code RATE_LIMIT_EXCEEDED, message, details, and an
optional correlation id).  Distinct constructors encode distinct JSON texts,
so equality of bodies is equality of the written bytes. -/
inductive Body
  | raw (s : String)
  | envelopeJson (c : CachedResponse)
  | rateLimitJson (correlationId : Option String)
deriving DecidableEq, Repr

/-- An HTTP response as observed by the client: final status code, the
headers set on the real ResponseWriter, and the body bytes. -/
structure Response where
  status : Nat
  headers : List (String × String)
  body : Body
deriving DecidableEq, Repr

/-- What a wrapped handler produces: the status it sets via WriteHeader (200
when it never calls WriteHeader), the headers it sets via Header().Set, and
the bytes it writes. -/
structure HandlerResult where
  status : Nat
  headers : List (String × String)
  body : String
deriving DecidableEq, Repr

/-- The response the client sees when a middleware passes the request
straight through: the handler writes directly to the real ResponseWriter. -/
def passThrough (h : HandlerResult) : Response :=
  { status := h.status, headers := h.headers, body := Body.raw h.body }

/-- Go `http.Error(w, msg, code)`: a text/plain response carrying the
message and a trailing newline. -/
def httpError (msg : String) (code : Nat) : Response :=
  { status := code
    headers := [("Content-Type", "text/plain; charset=utf-8")]
    body := Body.raw (msg ++ "\n") }

/-- An incoming HTTP request as the middleware chain sees it: method, URL
path, and the Idempotency-Key header (the empty string when absent). -/
structure Request where
  method : String
  path : String
  idempotencyKey : String
deriving DecidableEq, Repr

namespace storage

/-- The idempotency region of the Redis store: per key an entry together
with its absolute expiry instant, plus a flag for the store being
unreachable. -/
structure RedisCache where
  entries : String → Option (CachedResponse × Nat)
  down : Bool

/-- `redisClient.Get` as used by the gateway idempotency middleware.  The
middleware enters its cache-hit branch exactly when Get returned no error,
the value was non-empty and it unmarshalled; a down store, a missing key
(go-redis returns the redis.Nil error) and an expired key all make the
middleware fall through to executing the handler, so all three read as
`none`. -/
def RedisCache.get (r : RedisCache) (now : Nat) (key : String) :
    Option CachedResponse :=
  if r.down then none
  else
    match r.entries key with
    | some (v, expiresAt) => if now < expiresAt then some v else none
    | none => none

/-- `redisClient.Set` with a TTL: errors when the store is down (leaving it
unchanged), otherwise stores the value with absolute expiry `now + ttl`. -/
def RedisCache.set (r : RedisCache) (now : Nat) (key : String)
    (v : CachedResponse) (ttl : Nat) : Except Unit Unit × RedisCache :=
  if r.down then (Except.error (), r)
  else
    (Except.ok (),
      { r with
        entries := fun k => if k = key then some (v, now + ttl) else r.entries k })

/-- The rate-limit region of Redis: per key an integer counter with an
optional absolute expiry (`none` meaning no TTL), plus a down flag. -/
structure CounterStore where
  entries : String → Option (Nat × Option Nat)
  down : Bool

/-- Redis INCR: a missing or expired key restarts at 1 (with no TTL); a live
key is incremented keeping its TTL.  Errors when the store is down. -/
def CounterStore.incr (s : CounterStore) (now : Nat) (key : String) :
    Except Unit (Nat × CounterStore) :=
  if s.down then Except.error ()
  else
    let live : Option (Nat × Option Nat) :=
      match s.entries key with
      | some (v, some e) => if now < e then some (v, some e) else none
      | some (v, none) => some (v, none)
      | none => none
    match live with
    | some (v, e) =>
        Except.ok (v + 1,
          { s with
            entries := fun k => if k = key then some (v + 1, e) else s.entries k })
    | none =>
        Except.ok (1,
          { s with
            entries := fun k => if k = key then some (1, none) else s.entries k })

/-- Redis EXPIRE: sets the key's expiry to `now + window`; a no-op on a
missing key. -/
def CounterStore.expire (s : CounterStore) (now : Nat) (key : String)
    (window : Nat) : CounterStore :=
  match s.entries key with
  | some (v, _) =>
      { s with
        entries := fun k =>
          if k = key then some (v, some (now + window)) else s.entries k }
  | none => s

/-- The live value of a counter key: 0 when the key is absent or expired. -/
def CounterStore.count (s : CounterStore) (now : Nat) (key : String) : Nat :=
  match s.entries key with
  | some (v, some e) => if now < e then v else 0
  | some (v, none) => v
  | none => 0

/-- The stored expiry of a counter key, when any. -/
def CounterStore.expiryOf (s : CounterStore) (key : String) : Option Nat :=
  match s.entries key with
  | some (_, e) => e
  | none => none

/-- `storage.Redis.CheckRateLimit` (redis.go): INCR the key; if the
post-increment value is 1, set the key's expiry to the window; allowed iff
the post-increment count is at most the limit.  An INCR error propagates. -/
def CheckRateLimit (s : CounterStore) (now : Nat) (key : String)
    (limit : Nat) (window : Nat) : Except Unit (Bool × CounterStore) :=
  match s.incr now key with
  | Except.error _ => Except.error ()
  | Except.ok (current, s1) =>
      let s2 := if current = 1 then s1.expire now key window else s1
      Except.ok (decide (current ≤ limit), s2)

/-- The generic string key-value region of Redis used by pkg/httpmw. -/
structure KVStore where
  entries : String → Option String
  down : Bool

/-- `storage.Redis.CheckIdempotency` (redis.go): EXISTS on the key
`idempotency:` followed by the client token. -/
def CheckIdempotency (s : KVStore) (idempotencyKey : String) :
    Except Unit Bool :=
  if s.down then Except.error ()
  else Except.ok ((s.entries ("idempotency:" ++ idempotencyKey)).isSome)

/-- `storage.Redis.GetIdempotencyResult` (redis.go): GET on the key
`idempotency:` followed by the client token; a missing key surfaces the
redis.Nil error. -/
def GetIdempotencyResult (s : KVStore) (idempotencyKey : String) :
    Except Unit String :=
  if s.down then Except.error ()
  else
    match s.entries ("idempotency:" ++ idempotencyKey) with
    | some v => Except.ok v
    | none => Except.error ()

end storage

namespace middleware

open storage

/-- IdempotencyTTL, in seconds: the 15-minute idempotency cache TTL. -/
def IdempotencyTTL : Nat := 15 * 60

/-- The response served on an idempotency cache hit: the middleware never
calls WriteHeader (so the client sees 200), sets Content-Type and the
X-Idempotency-Cache marker, and re-encodes the whole cached envelope map as
the body. -/
def cacheHitResponse (cached : CachedResponse) : Response :=
  { status := 200
    headers := [("Content-Type", "application/json"),
                ("X-Idempotency-Cache", "hit")]
    body := Body.envelopeJson cached }

/-- The api-gateway `middleware.Idempotency` handler (idempotency.go,
src/unnamed/part_006).  Non-POST requests and requests without an
Idempotency-Key pass straight through.  Otherwise the cache key is
`idempotency:` route `:` token; a live cached entry is replayed without
running the handler; on a miss the handler runs against a capturing writer
(whose Header() map is detached, so handler headers do not reach the client)
and a 2xx outcome is cached with the 15-minute TTL — a Set error is only
logged.  Returns the client response, whether the wrapped handler ran, and
the updated store. -/
def Idempotency (redis : RedisCache) (now : Nat) (req : Request)
    (handler : Request → HandlerResult) : Response × Bool × RedisCache :=
  if req.method ≠ "POST" then (passThrough (handler req), true, redis)
  else if req.idempotencyKey = "" then (passThrough (handler req), true, redis)
  else
    let cacheKey := "idempotency:" ++ req.path ++ ":" ++ req.idempotencyKey
    match redis.get now cacheKey with
    | some cached => (cacheHitResponse cached, false, redis)
    | none =>
        let hr := handler req
        if 200 ≤ hr.status ∧ hr.status < 300 then
          ({ status := hr.status, headers := [], body := Body.raw hr.body },
            true,
            (redis.set now cacheKey ⟨hr.status, hr.headers, hr.body⟩
              IdempotencyTTL).2)
        else
          ({ status := hr.status, headers := [], body := Body.raw hr.body },
            true, redis)

/-- The api-gateway `middleware.RateLimit` handler (ratelimit.go).  The key
is `rate_limit:` ip `:` route and the window is `burst` seconds.  A store
error is logged and the request proceeds (fail open).  A rejected request is
answered 429 with Content-Type application/json, Retry-After 60 and the JSON
error body.  Returns the client response, whether the handler ran, and the
updated store. -/
def RateLimit (s : CounterStore) (now : Nat) (rps burst : Nat)
    (ip route : String) (correlationId : Option String)
    (handler : HandlerResult) : Response × Bool × CounterStore :=
  let key := "rate_limit:" ++ ip ++ ":" ++ route
  match CheckRateLimit s now key rps burst with
  | Except.error _ => (passThrough handler, true, s)
  | Except.ok (allowed, s1) =>
      if allowed then (passThrough handler, true, s1)
      else
        ({ status := 429
           headers := [("Content-Type", "application/json"),
                       ("Retry-After", "60")]
           body := Body.rateLimitJson correlationId }, false, s1)

end middleware

namespace httpmw

open storage

/-- `pkg/httpmw.IdempotencyKey` (middleware.go): only GET requests are
exempt; with a key present it calls CheckIdempotency — a store error answers
500 Internal Server Error without running the handler; an existing entry is
served back as a 200 application/json response; otherwise the request
proceeds.  Returns the client response and whether the handler ran. -/
def IdempotencyKey (kv : KVStore) (req : Request)
    (handler : Request → HandlerResult) : Response × Bool :=
  if req.method = "GET" then (passThrough (handler req), true)
  else if req.idempotencyKey = "" then (passThrough (handler req), true)
  else
    match CheckIdempotency kv req.idempotencyKey with
    | Except.error _ => (httpError "Internal Server Error" 500, false)
    | Except.ok true =>
        match GetIdempotencyResult kv req.idempotencyKey with
        | Except.error _ => (httpError "Internal Server Error" 500, false)
        | Except.ok result =>
            ({ status := 200
               headers := [("Content-Type", "application/json")]
               body := Body.raw result }, false)
    | Except.ok false => (passThrough (handler req), true)

/-- `pkg/httpmw.RateLimit` (middleware.go): the key is `rate_limit:` plus
the client IP (no route); a store error answers 500 Internal Server Error
without running the handler; a rejected request gets Retry-After set to the
window and the 429 Too Many Requests error. -/
def RateLimit (s : CounterStore) (now : Nat) (requests window : Nat)
    (clientIP : String) (handler : HandlerResult) :
    Response × Bool × CounterStore :=
  let key := "rate_limit:" ++ clientIP
  match CheckRateLimit s now key requests window with
  | Except.error _ => (httpError "Internal Server Error" 500, false, s)
  | Except.ok (allowed, s1) =>
      if allowed then (passThrough handler, true, s1)
      else
        ({ status := 429
           headers := [("Retry-After", toString window ++ "s"),
                       ("Content-Type", "text/plain; charset=utf-8")]
           body := Body.raw ("Too Many Requests" ++ "\n") }, false, s1)

end httpmw

namespace events

/-- EventMetadata (pkg/events/nats.go): the metadata block of every
published envelope. -/
structure EventMetadata where
  eventID : String
  correlationID : String
  sessionID : String
  occurredAt : Nat
  eventType : String
  sourceService : String
deriving DecidableEq, Repr

/-- The envelope published on the bus: metadata plus the domain payload
(payload kept opaque as its serialized form). -/
structure Envelope where
  metadata : EventMetadata
  data : String
deriving DecidableEq, Repr

/-- The request-scoped context values the publisher reads: correlation id
and session id, when present. -/
structure Ctx where
  correlationId : Option String
  sessionId : Option String
deriving DecidableEq, Repr

/-- `NATSEventBus.Publish` (nats.go).  The fresh UUID and the clock reading
are passed as arguments.  The metadata takes event_id from the fresh UUID,
correlation_id and session_id from the context (empty string when absent),
occurred_at from the clock, event_type equal to the subject, and
source_service from the hard-coded literal in the code.  Returns the
envelope and the list of (subject, payload) messages handed to the NATS
connection: the main publish, followed by a duplicate on the dlq subject
when the event_type equals the error literal. -/
def Publish (freshEventId : String) (now : Nat) (ctx : Ctx)
    (subject : String) (event : String) : Envelope × List (String × Envelope) :=
  let metadata : EventMetadata :=
    { eventID := freshEventId
      correlationID := ctx.correlationId.getD ""
      sessionID := ctx.sessionId.getD ""
      occurredAt := now
      eventType := subject
      sourceService := "unknown" }
  let env : Envelope := { metadata := metadata, data := event }
  (env,
    (subject, env) ::
      (if metadata.eventType = "error" then [(subject ++ ".dlq", env)] else []))

/-- The body of the `QueueSubscribe` callback (nats.go): the handler is run;
on a handler error the failure is logged; then the message is acknowledged —
`msg.Ack()` is outside any conditional.  Returns the pair
(error was logged, message was acknowledged). -/
def subscribeCallback (handlerResult : Except String Unit) : Bool × Bool :=
  match handlerResult with
  | Except.error _ => (true, true)
  | Except.ok _ => (false, true)

end events

namespace logger

/-- `Logger.WithMaskedIDNumber` (pkg/errors/errors.go): the masked value
logged under id_number_masked.  Go slices bytes; id numbers are ASCII, so
bytes are modelled as characters. -/
def WithMaskedIDNumber (idNumber : String) : String :=
  if idNumber.length > 4 then
    idNumber.take 2 ++ "****" ++ idNumber.drop (idNumber.length - 2)
  else "****"

end logger

namespace sessionsvc

/-- The ekyc_status enum of the schema (migrations, src/unnamed/part_014). -/
inductive EkycStatus
  | CREATED
  | DOC_UPLOADED
  | SELFIE_UPLOADED
  | LIVENESS_PENDING
  | UNDER_REVIEW
  | APPROVED
  | REJECTED
deriving DecidableEq, Repr

open EkycStatus

/-- The position of a status along the pipeline; APPROVED and REJECTED are
the two terminal outcomes at the same depth. -/
def rank : EkycStatus → Nat
  | CREATED => 0
  | DOC_UPLOADED => 1
  | SELFIE_UPLOADED => 2
  | LIVENESS_PENDING => 3
  | UNDER_REVIEW => 4
  | APPROVED => 5
  | REJECTED => 5

/-- Whether a status is terminal. -/
def isTerminal : EkycStatus → Bool
  | APPROVED => true
  | REJECTED => true
  | _ => false

/-- The result_kind enum of the schema. -/
inductive ResultKind
  | OCR
  | FACE
  | LIVENESS
deriving DecidableEq, Repr

/-- The verification steps a session must complete. -/
inductive Step
  | document
  | selfie
  | liveness
deriving DecidableEq, Repr

/-- The decision_status enum of the schema. -/
inductive DecisionStatus
  | APPROVED
  | REVIEW
  | REJECTED
deriving DecidableEq, Repr

/-- The session row fields the state machine mutates: status, pending
steps, and the recorded results tagged by (kind, event_id). -/
structure Session where
  status : EkycStatus
  pendingSteps : List Step
  results : List (ResultKind × String)
deriving DecidableEq, Repr

/-- The error taxonomy of the spec that the state machine raises. -/
inductive EkycError
  | ValidationError
  | NotFoundError
  | StateError
  | ConflictError
deriving DecidableEq, Repr

/-- The step a result kind satisfies. -/
def stepOfKind : ResultKind → Step
  | ResultKind.OCR => Step.document
  | ResultKind.FACE => Step.selfie
  | ResultKind.LIVENESS => Step.liveness

/-- The steps originally required of every session. -/
def requiredSteps : List Step := [Step.document, Step.selfie, Step.liveness]

/-- A fresh session as CreateSession makes it: CREATED with all three steps
pending and no results. -/
def newSession : Session :=
  { status := CREATED, pendingSteps := requiredSteps, results := [] }

/-- Modelled from the spec: the operations of the Session State Machine
(spec 4.1/4.5), whose implementing service is not among the provided source
files — only its schema, its gRPC clients and its callers are.  The decision
classification computed by the decision engine from qualities and thresholds
is passed as the `decision` argument of `recordResult`. -/
inductive SessionOp
  | documentUploaded
  | selfieUploaded
  | livenessUploaded
  | recordResult (kind : ResultKind) (eventId : String) (decision : DecisionStatus)
  | adminDecision (approve : Bool)
deriving DecidableEq, Repr

/-- Modelled from the spec: DocumentUploaded / SelfieUploaded /
LivenessUploaded (spec 4.1): StateError when the session is already terminal
or when the previous step is unsatisfied; otherwise the corresponding
pending step is removed and the status advances one stage, a no-op when the
session is already past that stage. -/
def uploadStep (s : Session) (step : Step) : Except EkycError Session :=
  if isTerminal s.status then Except.error EkycError.StateError
  else
    let requiredRank : Nat :=
      match step with
      | Step.document => 0
      | Step.selfie => 1
      | Step.liveness => 2
    if rank s.status < requiredRank then Except.error EkycError.StateError
    else
      let advanced : EkycStatus :=
        match step with
        | Step.document => if s.status = CREATED then DOC_UPLOADED else s.status
        | Step.selfie =>
            if s.status = DOC_UPLOADED then SELFIE_UPLOADED else s.status
        | Step.liveness =>
            if s.status = SELFIE_UPLOADED then LIVENESS_PENDING else s.status
      Except.ok
        { s with
          status := advanced
          pendingSteps := s.pendingSteps.filter (fun p => p != step) }

/-- Modelled from the spec: RecordResult (spec 4.1) and the decision engine
trigger (spec 4.5): a duplicate (kind, event_id) delivery is discarded
without re-scoring; otherwise the result is appended and, when every
required step has at least one result, the decision engine fires and sets
the status — REVIEW sets UNDER_REVIEW, APPROVED and REJECTED are terminal; a
late result after a terminal decision is recorded as an anomaly and never
overwrites the status. -/
def recordResult (s : Session) (kind : ResultKind) (eventId : String)
    (decision : DecisionStatus) : Except EkycError Session :=
  if (kind, eventId) ∈ s.results then Except.ok s
  else if isTerminal s.status then
    Except.ok { s with results := s.results ++ [(kind, eventId)] }
  else if requiredSteps.all
      (fun st => (s.results ++ [(kind, eventId)]).any
        (fun r => stepOfKind r.1 == st)) then
    Except.ok
      { s with
        results := s.results ++ [(kind, eventId)]
        status :=
          match decision with
          | DecisionStatus.APPROVED => APPROVED
          | DecisionStatus.REJECTED => REJECTED
          | DecisionStatus.REVIEW => UNDER_REVIEW }
  else Except.ok { s with results := s.results ++ [(kind, eventId)] }

/-- Modelled from the spec: ApplyAdminDecision (spec 4.1): valid only when
the session is UNDER_REVIEW or terminal (override allowed); it sets the
status to the admin's outcome; StateError while still mid-pipeline. -/
def applyAdminDecision (s : Session) (approve : Bool) :
    Except EkycError Session :=
  if s.status = UNDER_REVIEW ∨ isTerminal s.status then
    Except.ok { s with status := if approve then APPROVED else REJECTED }
  else Except.error EkycError.StateError

/-- Dispatch one state-machine operation. -/
def applyOp (s : Session) (op : SessionOp) : Except EkycError Session :=
  match op with
  | SessionOp.documentUploaded => uploadStep s Step.document
  | SessionOp.selfieUploaded => uploadStep s Step.selfie
  | SessionOp.livenessUploaded => uploadStep s Step.liveness
  | SessionOp.recordResult k e d => recordResult s k e d
  | SessionOp.adminDecision a => applyAdminDecision s a

/-- A failed operation terminates the request and leaves the stored session
unchanged. -/
def stepOp (s : Session) (op : SessionOp) : Session :=
  match applyOp s op with
  | Except.ok s2 => s2
  | Except.error _ => s

/-- Apply a whole sequence of operations to a session. -/
def applyOps (s : Session) (ops : List SessionOp) : Session :=
  ops.foldl stepOp s

end sessionsvc

/-- C10: the logger's id-number mask reveals at most the first two and the
last two characters of the input: an input longer than four characters is
logged as its first two characters, four asterisks, and its last two
characters; any other input is logged as exactly four asterisks. -/
theorem C10_mask_id_number (s : String) :
    (4 < s.length →
      logger.WithMaskedIDNumber s =
        s.take 2 ++ "****" ++ s.drop (s.length - 2)) ∧
    (s.length ≤ 4 → logger.WithMaskedIDNumber s = "****") := by
  constructor
  · intro h
    simp [logger.WithMaskedIDNumber, h]
  · intro h
    simp [logger.WithMaskedIDNumber, Nat.not_lt.mpr h]

/-- C10 witness: the mask evaluated at a long and at a short id number. -/
theorem C10_mask_id_number_witness :
    logger.WithMaskedIDNumber "079123456789" = "07****89" ∧
    logger.WithMaskedIDNumber "123" = "****" := by
  refine ⟨?_, (C10_mask_id_number "123").2 (by decide)⟩
  exact ((C10_mask_id_number "079123456789").1 (by decide)).trans (by decide)

/-- C6 counterexample: a message whose handler fails is still acknowledged —
the subscribe callback logs the error and then acknowledges unconditionally,
so the message is not left unacknowledged for redelivery as claimed. -/
theorem C6_counterexample :
    events.subscribeCallback (Except.error "handler failed") = (true, true) := by
  rfl

/-- C6 amended: every consumed message is acknowledged unconditionally,
whether or not its handler succeeded; a handler error is logged, but the
message is acknowledged all the same. -/
theorem C6_ack_unconditional (r : Except String Unit) :
    (events.subscribeCallback r).2 = true ∧
    (events.subscribeCallback r).1 = !r.isOk := by
  cases r <;> exact ⟨rfl, rfl⟩

/-- C5 counterexample: the envelope metadata does not carry the publisher's
identity — source_service is the same hard-coded literal for publishes with
different subjects, contexts and ids. -/
theorem C5_counterexample :
    (events.Publish "evt-1" 7 ⟨some "corr-1", some "sess-1"⟩ "ocr.request"
        "payload").1.metadata.sourceService = "unknown" ∧
    (events.Publish "evt-2" 9 ⟨none, none⟩ "face.result"
        "payload2").1.metadata.sourceService = "unknown" := by
  exact ⟨rfl, rfl⟩

/-- C5 amended: every published event is wrapped in a metadata/data envelope
whose metadata carries the freshly generated event_id, the correlation_id
and session_id taken from the request context (empty when absent), the
occurred_at clock reading, an event_type equal to the subject — and
source_service set to the constant string unknown, not the publisher's
identity; every message handed to the connection carries this envelope. -/
theorem C5_envelope_metadata (freshEventId : String) (now : Nat)
    (ctx : events.Ctx) (subject event : String) :
    (events.Publish freshEventId now ctx subject event).1 =
      { metadata :=
          { eventID := freshEventId
            correlationID := ctx.correlationId.getD ""
            sessionID := ctx.sessionId.getD ""
            occurredAt := now
            eventType := subject
            sourceService := "unknown" }
        data := event } ∧
    ((events.Publish freshEventId now ctx subject event).2.all
      (fun m => m.2 == (events.Publish freshEventId now ctx subject event).1))
      = true := by
  refine ⟨rfl, ?_⟩
  simp only [events.Publish]
  split <;> simp

/-- C7: a published message whose event_type signals an error (the code's
test: the event_type equals the error literal) is additionally published,
with the same envelope, on its subject suffixed with .dlq; any other message
is published only on its own subject. -/
theorem C7_dlq_duplication (freshEventId : String) (now : Nat)
    (ctx : events.Ctx) (subject event : String) :
    ((events.Publish freshEventId now ctx subject event).1.metadata.eventType
        = "error" →
      (events.Publish freshEventId now ctx subject event).2 =
        [(subject, (events.Publish freshEventId now ctx subject event).1),
         (subject ++ ".dlq",
           (events.Publish freshEventId now ctx subject event).1)]) ∧
    ((events.Publish freshEventId now ctx subject event).1.metadata.eventType
        ≠ "error" →
      (events.Publish freshEventId now ctx subject event).2 =
        [(subject, (events.Publish freshEventId now ctx subject event).1)]) := by
  constructor <;> intro h <;>
    simp only [events.Publish] at h ⊢ <;> simp [h]

/-- C7 witness: an error-typed publish is duplicated onto the dlq subject; a
normal publish is not. -/
theorem C7_dlq_duplication_witness :
    (events.Publish "e1" 0 ⟨none, none⟩ "error" "boom").2 =
      [("error", (events.Publish "e1" 0 ⟨none, none⟩ "error" "boom").1),
       ("error" ++ ".dlq", (events.Publish "e1" 0 ⟨none, none⟩ "error" "boom").1)] ∧
    (events.Publish "e2" 0 ⟨none, none⟩ "ocr.result" "r").2 =
      [("ocr.result", (events.Publish "e2" 0 ⟨none, none⟩ "ocr.result" "r").1)] := by
  exact ⟨(C7_dlq_duplication "e1" 0 ⟨none, none⟩ "error" "boom").1 rfl,
    (C7_dlq_duplication "e2" 0 ⟨none, none⟩ "ocr.result" "r").2 (by decide)⟩

/-- C9 counterexample: pkg/httpmw's IdempotencyKey middleware does not pass
non-POST requests straight through — a PUT carrying an Idempotency-Key is
looked up in the cache and answered from it without the handler running. -/
theorem C9_counterexample :
    (httpmw.IdempotencyKey
        ⟨fun k => if k = "idempotency:tok" then some "cached-result" else none,
          false⟩
        ⟨"PUT", "/p", "tok"⟩ (fun _ => ⟨204, [], ""⟩)).2 = false ∧
    (httpmw.IdempotencyKey
        ⟨fun k => if k = "idempotency:tok" then some "cached-result" else none,
          false⟩
        ⟨"PUT", "/p", "tok"⟩ (fun _ => ⟨204, [], ""⟩)).1 =
      ⟨200, [("Content-Type", "application/json")], Body.raw "cached-result"⟩ := by
  exact ⟨rfl, rfl⟩

/-- C9 amended: the gateway Idempotency middleware inspects only POST — any
other method passes straight through, with no cache lookup, no capture and
no caching, even when an Idempotency-Key is present; pkg/httpmw's
IdempotencyKey middleware however exempts only GET: for any other method
carrying a key (PUT, DELETE and PATCH included) it performs the cache
lookup, and the handler runs exactly when no cached entry exists. -/
theorem C9_post_only (redis : storage.RedisCache) (now : Nat) (req : Request)
    (handler : Request → HandlerResult) (kv : storage.KVStore)
    (req2 : Request) (handler2 : Request → HandlerResult) :
    (req.method ≠ "POST" →
      middleware.Idempotency redis now req handler =
        (passThrough (handler req), true, redis)) ∧
    (req2.method = "GET" →
      httpmw.IdempotencyKey kv req2 handler2 =
        (passThrough (handler2 req2), true)) ∧
    (req2.method ≠ "GET" → req2.idempotencyKey ≠ "" → kv.down = false →
      (httpmw.IdempotencyKey kv req2 handler2).2 =
        (kv.entries ("idempotency:" ++ req2.idempotencyKey)).isNone) := by
  refine ⟨?_, ?_, ?_⟩
  · intro h
    simp [middleware.Idempotency, h]
  · intro h
    simp [httpmw.IdempotencyKey, h]
  · intro hm hk hdown
    rcases hent : kv.entries ("idempotency:" ++ req2.idempotencyKey) with _ | v <;>
      simp [httpmw.IdempotencyKey, storage.CheckIdempotency,
        storage.GetIdempotencyResult, hm, hk, hdown, hent]

/-- C9 witness: a DELETE with a key passes through the gateway Idempotency
middleware untouched; a keyed PUT through httpmw runs the handler exactly
when the cache has no entry for the token. -/
theorem C9_post_only_witness :
    middleware.Idempotency ⟨fun _ => none, false⟩ 0 ⟨"DELETE", "/p", "tok"⟩
        (fun _ => ⟨204, [], ""⟩) =
      (passThrough ⟨204, [], ""⟩, true, ⟨fun _ => none, false⟩) ∧
    (httpmw.IdempotencyKey ⟨fun _ => none, false⟩ ⟨"PUT", "/p", "tok"⟩
        (fun _ => ⟨204, [], ""⟩)).2 =
      ((⟨fun _ => none, false⟩ : storage.KVStore).entries
        ("idempotency:" ++ "tok")).isNone := by
  exact ⟨(C9_post_only ⟨fun _ => none, false⟩ 0 ⟨"DELETE", "/p", "tok"⟩
      (fun _ => ⟨204, [], ""⟩) ⟨fun _ => none, false⟩ ⟨"PUT", "/p", "tok"⟩
      (fun _ => ⟨204, [], ""⟩)).1 (by decide),
    (C9_post_only ⟨fun _ => none, false⟩ 0 ⟨"DELETE", "/p", "tok"⟩
      (fun _ => ⟨204, [], ""⟩) ⟨fun _ => none, false⟩ ⟨"PUT", "/p", "tok"⟩
      (fun _ => ⟨204, [], ""⟩)).2.2 (by decide) (by decide) rfl⟩

/-- C3 counterexample: a store error does not always leave the request
unblocked — pkg/httpmw's RateLimit answers 500 Internal Server Error and
never runs the handler when its store is unreachable. -/
theorem C3_counterexample :
    (httpmw.RateLimit ⟨fun _ => none, true⟩ 0 10 60 "1.2.3.4"
        ⟨200, [], "ok"⟩).2.1 = false ∧
    (httpmw.RateLimit ⟨fun _ => none, true⟩ 0 10 60 "1.2.3.4"
        ⟨200, [], "ok"⟩).1 = httpError "Internal Server Error" 500 := by
  exact ⟨rfl, rfl⟩

/-- C3 amended: the api-gateway middlewares fail open — with their Redis
store unreachable, the gateway Idempotency guard still runs the wrapped
handler, and the gateway RateLimit middleware passes the request through —
but the pkg/httpmw variants fail closed: on a store error httpmw's
IdempotencyKey (on a keyed non-GET request) and httpmw's RateLimit answer
500 Internal Server Error without running the handler. -/
theorem C3_fail_open (redis : storage.RedisCache) (cs : storage.CounterStore)
    (kv : storage.KVStore) (now rps burst : Nat) (ip route : String)
    (corr : Option String) (req : Request)
    (handler : Request → HandlerResult) (hres : HandlerResult)
    (hredis : redis.down = true) (hcs : cs.down = true)
    (hkv : kv.down = true) :
    (middleware.Idempotency redis now req handler).2.1 = true ∧
    middleware.RateLimit cs now rps burst ip route corr hres =
      (passThrough hres, true, cs) ∧
    (req.method ≠ "GET" → req.idempotencyKey ≠ "" →
      httpmw.IdempotencyKey kv req handler =
        (httpError "Internal Server Error" 500, false)) ∧
    httpmw.RateLimit cs now rps burst ip hres =
      (httpError "Internal Server Error" 500, false, cs) := by
  refine ⟨?_, ?_, ?_, ?_⟩
  · simp only [middleware.Idempotency, storage.RedisCache.get, hredis,
      if_true]
    split_ifs <;> rfl
  · simp [middleware.RateLimit, storage.CheckRateLimit,
      storage.CounterStore.incr, hcs]
  · intro h1 h2
    simp [httpmw.IdempotencyKey, storage.CheckIdempotency, hkv, h1, h2]
  · simp [httpmw.RateLimit, storage.CheckRateLimit,
      storage.CounterStore.incr, hcs]

/-- C3 witness: with an unreachable store, the gateway Idempotency guard
still runs the handler of a keyed POST, and the gateway rate limiter passes
the request through. -/
theorem C3_fail_open_witness :
    (middleware.Idempotency ⟨fun _ => none, true⟩ 0 ⟨"POST", "/p", "t"⟩
        (fun _ => ⟨200, [], "ok"⟩)).2.1 = true ∧
    middleware.RateLimit ⟨fun _ => none, true⟩ 0 10 60 "ip" "/p" none
        ⟨200, [], "ok"⟩ =
      (passThrough ⟨200, [], "ok"⟩, true, ⟨fun _ => none, true⟩) := by
  exact ⟨(C3_fail_open ⟨fun _ => none, true⟩ ⟨fun _ => none, true⟩
      ⟨fun _ => none, true⟩ 0 10 60 "ip" "/p" none ⟨"POST", "/p", "t"⟩
      (fun _ => ⟨200, [], "ok"⟩) ⟨200, [], "ok"⟩ rfl rfl rfl).1,
    (C3_fail_open ⟨fun _ => none, true⟩ ⟨fun _ => none, true⟩
      ⟨fun _ => none, true⟩ 0 10 60 "ip" "/p" none ⟨"POST", "/p", "t"⟩
      (fun _ => ⟨200, [], "ok"⟩) ⟨200, [], "ok"⟩ rfl rfl rfl).2.1⟩

/-- Helper: on a cache miss (store reachable, no live entry under the
request's cache key) the gateway idempotency middleware always runs the
wrapped handler, whatever the method, key and handler outcome. -/
theorem Idempotency_runs_on_miss (store : storage.RedisCache) (now : Nat)
    (req : Request) (handler : Request → HandlerResult)
    (hup : store.down = false)
    (hmiss : store.entries
      ("idempotency:" ++ req.path ++ ":" ++ req.idempotencyKey) = none) :
    (middleware.Idempotency store now req handler).2.1 = true := by
  unfold middleware.Idempotency
  split
  · rfl
  · split
    · rfl
    · simp only [storage.RedisCache.get, hup, hmiss, Bool.false_eq_true,
        if_false]
      split_ifs <;> rfl

/-- C1 counterexample: the second call with the same Idempotency-Key does
not return the first response verbatim — the first call answers 201 with the
raw body, while the cached replay answers 200 with the JSON-encoded envelope
as its body — so the two responses differ although the handler ran only
once. -/
theorem C1_counterexample :
    (middleware.Idempotency ⟨fun _ => none, false⟩ 0 ⟨"POST", "/p", "tok"⟩
        (fun _ => ⟨201, [], "created"⟩)).1.status = 201 ∧
    (middleware.Idempotency
        (middleware.Idempotency ⟨fun _ => none, false⟩ 0 ⟨"POST", "/p", "tok"⟩
          (fun _ => ⟨201, [], "created"⟩)).2.2 60 ⟨"POST", "/p", "tok"⟩
        (fun _ => ⟨201, [], "created"⟩)).1.status = 200 ∧
    (middleware.Idempotency
        (middleware.Idempotency ⟨fun _ => none, false⟩ 0 ⟨"POST", "/p", "tok"⟩
          (fun _ => ⟨201, [], "created"⟩)).2.2 60 ⟨"POST", "/p", "tok"⟩
        (fun _ => ⟨201, [], "created"⟩)).2.1 = false ∧
    (middleware.Idempotency
        (middleware.Idempotency ⟨fun _ => none, false⟩ 0 ⟨"POST", "/p", "tok"⟩
          (fun _ => ⟨201, [], "created"⟩)).2.2 60 ⟨"POST", "/p", "tok"⟩
        (fun _ => ⟨201, [], "created"⟩)).1 ≠
      (middleware.Idempotency ⟨fun _ => none, false⟩ 0 ⟨"POST", "/p", "tok"⟩
        (fun _ => ⟨201, [], "created"⟩)).1 := by
  refine ⟨rfl, rfl, rfl, by decide⟩

/-- C1 amended: a POST with a non-empty Idempotency-Key executes the wrapped
operation exactly once — the second call within the 15-minute window does
not re-run the handler — but the second response is not the first one
verbatim: it is a 200 response flagged X-Idempotency-Cache hit whose
application/json body is the JSON encoding of the envelope holding the
original status, captured headers and body. -/
theorem C1_replay_once (store : storage.RedisCache) (t1 t2 : Nat)
    (req : Request) (handler : Request → HandlerResult)
    (hm : req.method = "POST") (hk : req.idempotencyKey ≠ "")
    (hup : store.down = false)
    (hmiss : store.entries
      ("idempotency:" ++ req.path ++ ":" ++ req.idempotencyKey) = none)
    (h2xx : 200 ≤ (handler req).status ∧ (handler req).status < 300)
    (hwin : t2 < t1 + middleware.IdempotencyTTL) :
    (middleware.Idempotency store t1 req handler).2.1 = true ∧
    (middleware.Idempotency (middleware.Idempotency store t1 req handler).2.2
        t2 req handler).2.1 = false ∧
    (middleware.Idempotency (middleware.Idempotency store t1 req handler).2.2
        t2 req handler).1 =
      middleware.cacheHitResponse
        ⟨(handler req).status, (handler req).headers, (handler req).body⟩ := by
  have hfirst : middleware.Idempotency store t1 req handler =
      ({ status := (handler req).status, headers := [],
         body := Body.raw (handler req).body }, true,
       (storage.RedisCache.set store t1
          ("idempotency:" ++ req.path ++ ":" ++ req.idempotencyKey)
          ⟨(handler req).status, (handler req).headers, (handler req).body⟩
          middleware.IdempotencyTTL).2) := by
    simp [middleware.Idempotency, hm, hk, storage.RedisCache.get, hup, hmiss,
      h2xx]
  have hsecond : middleware.Idempotency
      (middleware.Idempotency store t1 req handler).2.2 t2 req handler =
      (middleware.cacheHitResponse
        ⟨(handler req).status, (handler req).headers, (handler req).body⟩,
       false, (middleware.Idempotency store t1 req handler).2.2) := by
    rw [hfirst]
    simp [middleware.Idempotency, hm, hk, storage.RedisCache.get,
      storage.RedisCache.set, hup, hwin]
  exact ⟨by rw [hfirst], by rw [hsecond], by rw [hsecond]⟩

/-- C1 witness: a concrete POST replay — the handler runs on the first call
only, and the second response is the cache-hit replay of the captured
envelope. -/
theorem C1_replay_once_witness :
    (middleware.Idempotency ⟨fun _ => none, false⟩ 0 ⟨"POST", "/p", "tok"⟩
        (fun _ => ⟨200, [("X-A", "1")], "ok"⟩)).2.1 = true ∧
    (middleware.Idempotency
        (middleware.Idempotency ⟨fun _ => none, false⟩ 0 ⟨"POST", "/p", "tok"⟩
          (fun _ => ⟨200, [("X-A", "1")], "ok"⟩)).2.2 100 ⟨"POST", "/p", "tok"⟩
        (fun _ => ⟨200, [("X-A", "1")], "ok"⟩)).2.1 = false ∧
    (middleware.Idempotency
        (middleware.Idempotency ⟨fun _ => none, false⟩ 0 ⟨"POST", "/p", "tok"⟩
          (fun _ => ⟨200, [("X-A", "1")], "ok"⟩)).2.2 100 ⟨"POST", "/p", "tok"⟩
        (fun _ => ⟨200, [("X-A", "1")], "ok"⟩)).1 =
      middleware.cacheHitResponse ⟨200, [("X-A", "1")], "ok"⟩ := by
  exact C1_replay_once ⟨fun _ => none, false⟩ 0 100 ⟨"POST", "/p", "tok"⟩
    (fun _ => ⟨200, [("X-A", "1")], "ok"⟩) rfl (by decide) rfl rfl
    (by decide) (by decide)

/-- C4: the idempotency guard stores the captured response under the key
idempotency:route:token with the 15-minute TTL, and writes it only after a
successful (2xx) completion; a non-2xx execution leaves the store untouched,
so a retry with the same token runs the operation again. -/
theorem C4_store_only_after_success (store : storage.RedisCache)
    (now t2 : Nat) (req : Request) (handler : Request → HandlerResult)
    (hm : req.method = "POST") (hk : req.idempotencyKey ≠ "")
    (hup : store.down = false)
    (hmiss : store.entries
      ("idempotency:" ++ req.path ++ ":" ++ req.idempotencyKey) = none) :
    (middleware.Idempotency store now req handler).2.1 = true ∧
    (200 ≤ (handler req).status ∧ (handler req).status < 300 →
      (middleware.Idempotency store now req handler).2.2.entries
          ("idempotency:" ++ req.path ++ ":" ++ req.idempotencyKey) =
        some (⟨(handler req).status, (handler req).headers,
          (handler req).body⟩, now + middleware.IdempotencyTTL)) ∧
    (¬(200 ≤ (handler req).status ∧ (handler req).status < 300) →
      (middleware.Idempotency store now req handler).2.2 = store ∧
      (middleware.Idempotency
          (middleware.Idempotency store now req handler).2.2 t2 req
          handler).2.1 = true) := by
  refine ⟨Idempotency_runs_on_miss store now req handler hup hmiss, ?_, ?_⟩
  · intro h2xx
    simp [middleware.Idempotency, hm, hk, storage.RedisCache.get, hup, hmiss,
      h2xx, storage.RedisCache.set]
  · intro hno
    have hsame : (middleware.Idempotency store now req handler).2.2 = store := by
      simp [middleware.Idempotency, hm, hk, storage.RedisCache.get, hup,
        hmiss, hno]
    refine ⟨hsame, ?_⟩
    rw [hsame]
    exact Idempotency_runs_on_miss store t2 req handler hup hmiss

/-- C4 witness: a successful concrete POST is cached under the composed key
with the 15-minute expiry. -/
theorem C4_store_only_after_success_witness :
    (middleware.Idempotency ⟨fun _ => none, false⟩ 5 ⟨"POST", "/p", "t1"⟩
        (fun _ => ⟨200, [], "ok"⟩)).2.2.entries
        ("idempotency:" ++ "/p" ++ ":" ++ "t1") =
      some (⟨200, [], "ok"⟩, 5 + middleware.IdempotencyTTL) := by
  exact (C4_store_only_after_success ⟨fun _ => none, false⟩ 5 6
    ⟨"POST", "/p", "t1"⟩ (fun _ => ⟨200, [], "ok"⟩) rfl (by decide) rfl
    rfl).2.1 (by decide)

/-- Helper: INCR on a reachable store never errors. -/
theorem incr_ok (s : storage.CounterStore) (now : Nat) (key : String)
    (hup : s.down = false) :
    ∃ v s1, storage.CounterStore.incr s now key = Except.ok (v, s1) := by
  unfold storage.CounterStore.incr
  simp only [hup, Bool.false_eq_true, if_false]
  split
  · exact ⟨_, _, rfl⟩
  · exact ⟨_, _, rfl⟩

/-- Helper: CheckRateLimit on a reachable store never errors. -/
theorem CheckRateLimit_ok (s : storage.CounterStore) (now : Nat)
    (key : String) (limit window : Nat) (hup : s.down = false) :
    ∃ b s2, storage.CheckRateLimit s now key limit window =
      Except.ok (b, s2) := by
  obtain ⟨v, s1, h⟩ := incr_ok s now key hup
  unfold storage.CheckRateLimit
  rw [h]
  exact ⟨_, _, rfl⟩

/-- Helper: behaviour of CheckRateLimit on a reachable store: the verdict is
admission iff the post-increment live count is within the limit; the live
count goes up by one; and a count starting from zero gets the key's expiry
set to one window from now. -/
theorem CheckRateLimit_spec (s : storage.CounterStore) (now : Nat)
    (key : String) (limit window : Nat) (hup : s.down = false)
    (hw : 0 < window) :
    ∀ b s2, storage.CheckRateLimit s now key limit window =
        Except.ok (b, s2) →
      ((b = true) ↔ s.count now key + 1 ≤ limit) ∧
      s2.count now key = s.count now key + 1 ∧
      (s.count now key = 0 → s2.expiryOf key = some (now + window)) := by
  intro b s2 heq
  have hnow : now < now + window := Nat.lt_add_of_pos_right hw
  rcases hent : s.entries key with _ | ⟨v, eo⟩
  · simp [storage.CheckRateLimit, storage.CounterStore.incr, hup, hent,
      storage.CounterStore.expire] at heq
    obtain ⟨hb, hs⟩ := heq
    subst hb
    subst hs
    refine ⟨by simp [storage.CounterStore.count, hent], ?_, fun _ => ?_⟩
    · simp [storage.CounterStore.count, hent, hnow]
    · simp [storage.CounterStore.expiryOf]
  · rcases eo with _ | e
    · by_cases hv : v = 0
      · subst hv
        simp [storage.CheckRateLimit, storage.CounterStore.incr, hup, hent,
          storage.CounterStore.expire] at heq
        obtain ⟨hb, hs⟩ := heq
        subst hb
        subst hs
        refine ⟨by simp [storage.CounterStore.count, hent], ?_, fun _ => ?_⟩
        · simp [storage.CounterStore.count, hent, hnow]
        · simp [storage.CounterStore.expiryOf]
      · simp [storage.CheckRateLimit, storage.CounterStore.incr, hup, hent,
          storage.CounterStore.expire, hv] at heq
        obtain ⟨hb, hs⟩ := heq
        subst hb
        subst hs
        refine ⟨by simp [storage.CounterStore.count, hent], ?_, fun h0 => ?_⟩
        · simp [storage.CounterStore.count, hent]
        · exact absurd h0 (by simp [storage.CounterStore.count, hent, hv])
    · by_cases hlt : now < e
      · by_cases hv : v = 0
        · subst hv
          simp [storage.CheckRateLimit, storage.CounterStore.incr, hup, hent,
            hlt, storage.CounterStore.expire] at heq
          obtain ⟨hb, hs⟩ := heq
          subst hb
          subst hs
          refine ⟨by simp [storage.CounterStore.count, hent, hlt], ?_,
            fun _ => ?_⟩
          · simp [storage.CounterStore.count, hent, hlt, hnow]
          · simp [storage.CounterStore.expiryOf]
        · simp [storage.CheckRateLimit, storage.CounterStore.incr, hup, hent,
            hlt, storage.CounterStore.expire, hv] at heq
          obtain ⟨hb, hs⟩ := heq
          subst hb
          subst hs
          refine ⟨by simp [storage.CounterStore.count, hent, hlt], ?_,
            fun h0 => ?_⟩
          · simp [storage.CounterStore.count, hent, hlt]
          · exact absurd h0
              (by simp [storage.CounterStore.count, hent, hlt, hv])
      · simp [storage.CheckRateLimit, storage.CounterStore.incr, hup, hent,
          hlt, storage.CounterStore.expire] at heq
        obtain ⟨hb, hs⟩ := heq
        subst hb
        subst hs
        refine ⟨by simp [storage.CounterStore.count, hent, hlt], ?_,
          fun _ => ?_⟩
        · simp [storage.CounterStore.count, hent, hlt, hnow]
        · simp [storage.CounterStore.expiryOf]

/-- Status codes answered to n successive requests from one caller and route
through the gateway rate limiter, limit 10, window 60 seconds, all inside
one window (the handler answers 200). -/
def rateLimitStatuses : Nat → storage.CounterStore → List Nat
  | 0, _ => []
  | Nat.succ n, s =>
      (middleware.RateLimit s 0 10 60 "ip" "/r" none ⟨200, [], "ok"⟩).1.status ::
        rateLimitStatuses n
          (middleware.RateLimit s 0 10 60 "ip" "/r" none ⟨200, [], "ok"⟩).2.2

/-- C2: the rate limiter increments the caller/route counter, sets its
expiry to the window length when the post-increment value is 1, admits the
request iff the post-increment count is at most the limit, answers 429 with
a Retry-After hint otherwise — and with limit 10 in one window the 11th
request from the same caller and route is the first rejected one. -/
theorem C2_fixed_window (s : storage.CounterStore) (now rps burst : Nat)
    (ip route : String) (corr : Option String) (handler : HandlerResult)
    (hup : s.down = false) (hw : 0 < burst) :
    (∀ b s2, storage.CheckRateLimit s now
        ("rate_limit:" ++ ip ++ ":" ++ route) rps burst = Except.ok (b, s2) →
      ((b = true) ↔
        s.count now ("rate_limit:" ++ ip ++ ":" ++ route) + 1 ≤ rps) ∧
      s2.count now ("rate_limit:" ++ ip ++ ":" ++ route) =
        s.count now ("rate_limit:" ++ ip ++ ":" ++ route) + 1 ∧
      (s.count now ("rate_limit:" ++ ip ++ ":" ++ route) = 0 →
        s2.expiryOf ("rate_limit:" ++ ip ++ ":" ++ route) =
          some (now + burst))) ∧
    ((middleware.RateLimit s now rps burst ip route corr handler).2.1 = true ↔
      s.count now ("rate_limit:" ++ ip ++ ":" ++ route) + 1 ≤ rps) ∧
    ((middleware.RateLimit s now rps burst ip route corr handler).2.1 = false →
      (middleware.RateLimit s now rps burst ip route corr handler).1.status
          = 429 ∧
      ("Retry-After", "60") ∈
        (middleware.RateLimit s now rps burst ip route corr handler).1.headers) ∧
    ((middleware.RateLimit s now rps burst ip route corr handler).2.1 = true →
      (middleware.RateLimit s now rps burst ip route corr handler).1 =
        passThrough handler) ∧
    rateLimitStatuses 11 ⟨fun _ => none, false⟩ =
      List.replicate 10 200 ++ [429] := by
  obtain ⟨b, s2, hres⟩ := CheckRateLimit_ok s now
    ("rate_limit:" ++ ip ++ ":" ++ route) rps burst hup
  have hspec := CheckRateLimit_spec s now
    ("rate_limit:" ++ ip ++ ":" ++ route) rps burst hup hw b s2 hres
  have h21 : (middleware.RateLimit s now rps burst ip route corr handler).2.1
      = b := by
    simp only [middleware.RateLimit]
    rw [hres]
    cases b <;> rfl
  have hresp : (middleware.RateLimit s now rps burst ip route corr handler).1
      = if b then passThrough handler
        else
          { status := 429
            headers := [("Content-Type", "application/json"),
                        ("Retry-After", "60")]
            body := Body.rateLimitJson corr } := by
    simp only [middleware.RateLimit]
    rw [hres]
    cases b <;> rfl
  refine ⟨CheckRateLimit_spec s now _ rps burst hup hw, ?_, ?_, ?_, by decide⟩
  · rw [h21]
    exact hspec.1
  · intro hfalse
    rw [h21] at hfalse
    subst hfalse
    rw [hresp]
    exact ⟨rfl, by simp⟩
  · intro htrue
    rw [h21] at htrue
    subst htrue
    rw [hresp]
    rfl

/-- C2 witness: from an empty store with limit 10, a concrete request is
admitted exactly because its post-increment count is within the limit. -/
theorem C2_fixed_window_witness :
    ((middleware.RateLimit ⟨fun _ => none, false⟩ 0 10 60 "ip" "/r" none
        ⟨200, [], "ok"⟩).2.1 = true ↔
      (⟨fun _ => none, false⟩ : storage.CounterStore).count 0
          ("rate_limit:" ++ "ip" ++ ":" ++ "/r") + 1 ≤ 10) := by
  exact (C2_fixed_window ⟨fun _ => none, false⟩ 0 10 60 "ip" "/r" none
    ⟨200, [], "ok"⟩ rfl (by decide)).2.1

/-- Helper: a non-terminal status sits at depth at most UNDER_REVIEW. -/
theorem rank_le_four_of_not_terminal (st : sessionsvc.EkycStatus)
    (h : sessionsvc.isTerminal st = false) : sessionsvc.rank st ≤ 4 := by
  cases st <;> simp_all [sessionsvc.isTerminal, sessionsvc.rank]

/-- Helper: no status sits deeper than the terminal outcomes. -/
theorem rank_le_five (st : sessionsvc.EkycStatus) : sessionsvc.rank st ≤ 5 := by
  cases st <;> simp [sessionsvc.rank]

/-- Helper: a successful upload step never lowers the status's depth. -/
theorem uploadStep_mono (s : sessionsvc.Session) (st : sessionsvc.Step)
    (s2 : sessionsvc.Session)
    (h : sessionsvc.uploadStep s st = Except.ok s2) :
    sessionsvc.rank s.status ≤ sessionsvc.rank s2.status := by
  cases st <;> cases hs : s.status <;>
    simp_all [sessionsvc.uploadStep, sessionsvc.rank, sessionsvc.isTerminal] <;>
    subst h <;> simp [sessionsvc.rank]

/-- Helper: recording a result never lowers the status's depth: the decision
engine only ever sets UNDER_REVIEW or a terminal outcome, and only from a
non-terminal state. -/
theorem recordResult_mono (s : sessionsvc.Session) (k : sessionsvc.ResultKind)
    (e : String) (d : sessionsvc.DecisionStatus) (s2 : sessionsvc.Session)
    (h : sessionsvc.recordResult s k e d = Except.ok s2) :
    sessionsvc.rank s.status ≤ sessionsvc.rank s2.status := by
  unfold sessionsvc.recordResult at h
  by_cases hdup : (k, e) ∈ s.results
  · rw [if_pos hdup] at h
    cases h
    exact Nat.le_refl _
  · rw [if_neg hdup] at h
    by_cases hterm : sessionsvc.isTerminal s.status = true
    · rw [if_pos hterm] at h
      cases h
      exact Nat.le_refl _
    · rw [if_neg hterm] at h
      by_cases hall : (sessionsvc.requiredSteps.all
          (fun st => (s.results ++ [(k, e)]).any
            fun r => sessionsvc.stepOfKind r.1 == st)) = true
      · rw [if_pos hall] at h
        cases h
        cases d
        · simpa [sessionsvc.rank] using rank_le_five s.status
        · simpa [sessionsvc.rank] using
            rank_le_four_of_not_terminal s.status (by simpa using hterm)
        · simpa [sessionsvc.rank] using rank_le_five s.status
      · rw [if_neg hall] at h
        cases h
        exact Nat.le_refl _

/-- Helper: an admin decision is accepted only from UNDER_REVIEW or a
terminal state, and never lowers the status's depth. -/
theorem applyAdminDecision_cases (s : sessionsvc.Session) (a : Bool)
    (s2 : sessionsvc.Session)
    (h : sessionsvc.applyAdminDecision s a = Except.ok s2) :
    (s.status = sessionsvc.EkycStatus.UNDER_REVIEW ∨
      sessionsvc.isTerminal s.status = true) ∧
    sessionsvc.rank s.status ≤ sessionsvc.rank s2.status := by
  unfold sessionsvc.applyAdminDecision at h
  split at h
  case isTrue hcond =>
    cases h
    refine ⟨hcond, ?_⟩
    have h5 : sessionsvc.rank s.status ≤ 5 := rank_le_five s.status
    cases a <;> simpa [sessionsvc.rank] using h5
  case isFalse hcond =>
    exact absurd h (by simp)

/-- Helper: a successful operation never lowers the status's depth. -/
theorem applyOp_mono (s : sessionsvc.Session) (op : sessionsvc.SessionOp)
    (s2 : sessionsvc.Session)
    (h : sessionsvc.applyOp s op = Except.ok s2) :
    sessionsvc.rank s.status ≤ sessionsvc.rank s2.status := by
  cases op with
  | documentUploaded => exact uploadStep_mono s sessionsvc.Step.document s2 h
  | selfieUploaded => exact uploadStep_mono s sessionsvc.Step.selfie s2 h
  | livenessUploaded => exact uploadStep_mono s sessionsvc.Step.liveness s2 h
  | recordResult k e d => exact recordResult_mono s k e d s2 h
  | adminDecision a => exact (applyAdminDecision_cases s a s2 h).2

/-- Helper: one request (failed requests leave the session unchanged) never
lowers the status's depth. -/
theorem stepOp_mono (s : sessionsvc.Session) (op : sessionsvc.SessionOp) :
    sessionsvc.rank s.status ≤ sessionsvc.rank (sessionsvc.stepOp s op).status := by
  unfold sessionsvc.stepOp
  split
  case h_1 s2 heq => exact applyOp_mono s op s2 heq
  case h_2 => exact Nat.le_refl _

/-- Helper: no sequence of operations lowers the status's depth. -/
theorem applyOps_mono (ops : List sessionsvc.SessionOp) :
    ∀ s : sessionsvc.Session,
      sessionsvc.rank s.status ≤
        sessionsvc.rank (sessionsvc.applyOps s ops).status := by
  induction ops with
  | nil => intro s; exact Nat.le_refl _
  | cons op rest ih =>
      intro s
      exact Nat.le_trans (stepOp_mono s op) (ih (sessionsvc.stepOp s op))

/-- C8: for every session and every sequence of operations, the status only
moves forward along the pipeline — no single successful operation and no
sequence of operations ever lowers its position — and an admin decision is
accepted only from UNDER_REVIEW or from a terminal state (override). -/
theorem C8_status_monotone :
    (∀ (s : sessionsvc.Session) (op : sessionsvc.SessionOp)
        (s2 : sessionsvc.Session),
      sessionsvc.applyOp s op = Except.ok s2 →
        sessionsvc.rank s.status ≤ sessionsvc.rank s2.status) ∧
    (∀ (s : sessionsvc.Session) (ops : List sessionsvc.SessionOp),
      sessionsvc.rank s.status ≤
        sessionsvc.rank (sessionsvc.applyOps s ops).status) ∧
    (∀ (s : sessionsvc.Session) (a : Bool) (s2 : sessionsvc.Session),
      sessionsvc.applyOp s (sessionsvc.SessionOp.adminDecision a) =
          Except.ok s2 →
        s.status = sessionsvc.EkycStatus.UNDER_REVIEW ∨
          sessionsvc.isTerminal s.status = true) :=
  ⟨applyOp_mono, fun s ops => applyOps_mono ops s,
    fun s a s2 h => (applyAdminDecision_cases s a s2 h).1⟩

/-- C8 witness: uploading the document to a fresh session advances it from
CREATED to DOC_UPLOADED, a forward move. -/
theorem C8_status_monotone_witness :
    sessionsvc.rank sessionsvc.newSession.status ≤
      sessionsvc.rank
        (⟨sessionsvc.EkycStatus.DOC_UPLOADED,
          [sessionsvc.Step.selfie, sessionsvc.Step.liveness], []⟩ :
          sessionsvc.Session).status := by
  exact C8_status_monotone.1 sessionsvc.newSession
    sessionsvc.SessionOp.documentUploaded
    ⟨sessionsvc.EkycStatus.DOC_UPLOADED,
      [sessionsvc.Step.selfie, sessionsvc.Step.liveness], []⟩ rfl

end Ekyc
